import Mathlib

/-!
Verification development for the ORSF (open racing setup format) C++ core:
a shallow embedding of the data model, the path addressing / mapping engine
(src/cpp/src/mapping.cpp), the unit converter and lookup-table converter
(src/cpp/src/utils.cpp), and the validation rule engine
(src/cpp/src/validator.cpp).  C++ `double` is modelled as `ℚ` (the
algorithms under study are exact piecewise-rational maps), `std::optional`
as `Option`, thrown exceptions as `Except`/`Option`, and `std::map` as a
key-sorted association list.
-/

namespace Orsf

/-! ## String splitting (StringUtils::split, utils.cpp lines 292-300)

`std::getline` semantics: an empty string yields no parts, and a trailing
delimiter does not produce a trailing empty part (the stream hits EOF
before the next `getline` call). -/

/-- One `getline` pass: accumulate characters until the delimiter; on the
delimiter, emit the accumulated part and continue with the remaining
characters (emitting nothing more if the remainder is empty, matching the
failing `getline` on an exhausted stream). -/
def splitGo (d : Char) : List Char → List Char → List String
  | [], acc => [String.mk acc.reverse]
  | c :: cs, acc =>
    if c = d then
      String.mk acc.reverse :: (if cs.isEmpty then [] else splitGo d cs [])
    else
      splitGo d cs (c :: acc)

/-- Model of `StringUtils::split(str, delim)`. -/
def split (s : String) (d : Char) : List String :=
  match s.data with
  | [] => []
  | c :: cs => splitGo d (c :: cs) []

/-- Model of `MappingEngine::split_path` (mapping.cpp lines 274-276). -/
def split_path (path : String) : List String :=
  split path '.'

/-! ## Data model (include/orsf/core.hpp)

Every C++ `std::optional` leaf is an `Option`; `double` is `ℚ`, `int` is
`ℤ`.  Field defaults mirror the C++ default constructors (empty optionals,
empty strings, and `schema = "orsf://v1"` from `ORSF()`). -/

/-- Minimal model of an `nlohmann::json` value (used only by the opaque
`strategy.custom` / `compat` escape hatches, which the core engine never
touches). -/
inductive Json where
  | null : Json
  | bool (b : Bool) : Json
  | num (v : ℚ) : Json
  | str (s : String) : Json
  | arr (elems : List Json) : Json
  | obj (members : List (String × Json)) : Json

/-- Metadata (core.hpp lines 47-60). -/
structure Metadata where
  id : String := ""
  name : String := ""
  notes : Option String := none
  created_at : String := ""
  updated_at : Option String := none
  created_by : Option String := none
  tags : Option (List String) := none
  source : Option String := none
  origin_sim : Option String := none

/-- Car (core.hpp lines 63-72). -/
structure Car where
  make : String := ""
  model : String := ""
  variant : Option String := none
  car_class : Option String := none
  bop_id : Option String := none

/-- Context (core.hpp lines 75-87). -/
structure Context where
  track : Option String := none
  layout : Option String := none
  ambient_temp_c : Option ℚ := none
  track_temp_c : Option ℚ := none
  rubber : Option String := none
  wetness : Option ℚ := none
  session_type : Option String := none
  fuel_rule : Option String := none

/-- Aerodynamics (core.hpp lines 94-110). -/
structure Aerodynamics where
  front_wing : Option ℚ := none
  rear_wing : Option ℚ := none
  front_downforce_n : Option ℚ := none
  rear_downforce_n : Option ℚ := none
  front_ride_height_mm : Option ℚ := none
  rear_ride_height_mm : Option ℚ := none
  rake_mm : Option ℚ := none
  brake_duct_front_pct : Option ℚ := none
  brake_duct_rear_pct : Option ℚ := none
  radiator_opening_pct : Option ℚ := none

/-- CornerSuspension (core.hpp lines 113-132). -/
structure CornerSuspension where
  camber_deg : Option ℚ := none
  toe_deg : Option ℚ := none
  caster_deg : Option ℚ := none
  spring_rate_n_mm : Option ℚ := none
  ride_height_mm : Option ℚ := none
  bumpstop_gap_mm : Option ℚ := none
  bumpstop_rate_n_mm : Option ℚ := none
  packer_mm : Option ℚ := none
  damper_bump_slow_n_s_m : Option ℚ := none
  damper_bump_fast_n_s_m : Option ℚ := none
  damper_rebound_slow_n_s_m : Option ℚ := none
  damper_rebound_fast_n_s_m : Option ℚ := none

/-- Suspension (core.hpp lines 135-148). -/
structure Suspension where
  front_left : Option CornerSuspension := none
  front_right : Option CornerSuspension := none
  rear_left : Option CornerSuspension := none
  rear_right : Option CornerSuspension := none
  front_arb : Option ℚ := none
  rear_arb : Option ℚ := none
  heave_spring_n_mm : Option ℚ := none
  heave_packer_mm : Option ℚ := none

/-- Tires (core.hpp lines 151-162). -/
structure Tires where
  compound : Option String := none
  pressure_fl_kpa : Option ℚ := none
  pressure_fr_kpa : Option ℚ := none
  pressure_rl_kpa : Option ℚ := none
  pressure_rr_kpa : Option ℚ := none
  stagger_mm : Option ℚ := none

/-- Drivetrain (core.hpp lines 165-175). -/
structure Drivetrain where
  diff_preload_nm : Option ℚ := none
  diff_power_ramp_pct : Option ℚ := none
  diff_coast_ramp_pct : Option ℚ := none
  final_drive_ratio : Option ℚ := none
  lsd_clutch_plates : Option ℤ := none

/-- Gearing (core.hpp lines 178-184). -/
structure Gearing where
  gear_ratios : Option (List ℚ) := none
  reverse_ratio : Option ℚ := none

/-- Brakes (core.hpp lines 187-195). -/
structure Brakes where
  pad_compound : Option String := none
  disc_type : Option String := none
  brake_bias_pct : Option ℚ := none
  max_force_n : Option ℚ := none

/-- Electronics (core.hpp lines 198-209). -/
structure Electronics where
  tc_level : Option ℤ := none
  tc2_level : Option ℤ := none
  abs_level : Option ℤ := none
  engine_map : Option ℤ := none
  engine_brake_level : Option ℤ := none
  pit_limiter_kph : Option ℚ := none

/-- Fuel (core.hpp lines 212-220). -/
structure Fuel where
  start_fuel_l : Option ℚ := none
  per_lap_consumption_l : Option ℚ := none
  stint_target_laps : Option ℤ := none
  mixture_setting : Option ℤ := none

/-- Strategy (core.hpp lines 223-230). -/
structure Strategy where
  tire_change_policy : Option String := none
  notes : Option String := none
  custom : List (String × Json) := []

/-- Setup (core.hpp lines 233-247). -/
structure Setup where
  aero : Option Aerodynamics := none
  suspension : Option Suspension := none
  tires : Option Tires := none
  drivetrain : Option Drivetrain := none
  gearing : Option Gearing := none
  brakes : Option Brakes := none
  electronics : Option Electronics := none
  fuel : Option Fuel := none
  strategy : Option Strategy := none

/-- ORSF document (core.hpp lines 254-279); the default constructor sets
`schema` to the literal `"orsf://v1"`. -/
structure ORSF where
  schema : String := "orsf://v1"
  metadata : Metadata := {}
  car : Car := {}
  context : Option Context := none
  setup : Setup := {}
  compat : Option (List (String × Json)) := none

/-- A default-constructed document, `ORSF()` in C++. -/
def baseORSF : ORSF := {}

/-! ## FlatSetup (std::map<std::string, double>)

Modelled as an association list kept sorted ascending by key, matching the
iteration order of `std::map`. -/

/-- Flat key/value representation of a setup. -/
abbrev FlatSetup : Type := List (String × ℚ)

/-- The empty flat map. -/
def emptyFlat : FlatSetup := []

/-- Byte-wise lexicographic comparison on character lists, the order of
`std::string::operator<` (the key order of `std::map<std::string, _>`). -/
def charsLt : List Char → List Char → Bool
  | [], [] => false
  | [], _ :: _ => true
  | _ :: _, [] => false
  | a :: as, b :: bs =>
    if a.toNat < b.toNat then true
    else if b.toNat < a.toNat then false
    else charsLt as bs

/-- String order used by the map model. -/
def strLt (s t : String) : Bool := charsLt s.data t.data

/-- Model of `flat[key] = value` on `std::map`: insert in key order,
overwriting an existing binding. -/
def flatInsert : FlatSetup → String → ℚ → FlatSetup
  | [], k, v => [(k, v)]
  | (k', v') :: rest, k, v =>
    if k = k' then (k, v) :: rest
    else if strLt k k' then (k, v) :: (k', v') :: rest
    else (k', v') :: flatInsert rest k v

/-- Model of `std::map::find` returning the mapped value when present. -/
def flatFind : FlatSetup → String → Option ℚ
  | [], _ => none
  | (k', v') :: rest, k => if k = k' then some v' else flatFind rest k

/-! ## Path addressing: get_value (mapping.cpp lines 95-215)

The C++ function is a chain of early returns guarded by
`section == <name> && <subsystem>.has_value()`; the sections are mutually
exclusive on the section string, so the chain is encoded as nested
conditionals.  A branch whose leaf-field name matches returns the leaf's
optional value directly (so a known-but-unset leaf yields "no value"); an
unmatched leaf name falls through all remaining section tests and yields
"no value" as well. -/

/-- Aero leaf lookup (mapping.cpp lines 111-120). -/
def getAeroField (a : Aerodynamics) (f : String) : Option ℚ :=
  if f = "front_wing" then a.front_wing
  else if f = "rear_wing" then a.rear_wing
  else if f = "front_downforce_n" then a.front_downforce_n
  else if f = "rear_downforce_n" then a.rear_downforce_n
  else if f = "front_ride_height_mm" then a.front_ride_height_mm
  else if f = "rear_ride_height_mm" then a.rear_ride_height_mm
  else if f = "rake_mm" then a.rake_mm
  else if f = "brake_duct_front_pct" then a.brake_duct_front_pct
  else if f = "brake_duct_rear_pct" then a.brake_duct_rear_pct
  else if f = "radiator_opening_pct" then a.radiator_opening_pct
  else none

/-- Corner leaf lookup (mapping.cpp lines 136-146). -/
def getCornerField (c : CornerSuspension) (f : String) : Option ℚ :=
  if f = "camber_deg" then c.camber_deg
  else if f = "toe_deg" then c.toe_deg
  else if f = "caster_deg" then c.caster_deg
  else if f = "spring_rate_n_mm" then c.spring_rate_n_mm
  else if f = "ride_height_mm" then c.ride_height_mm
  else if f = "bumpstop_gap_mm" then c.bumpstop_gap_mm
  else if f = "bumpstop_rate_n_mm" then c.bumpstop_rate_n_mm
  else if f = "damper_bump_slow_n_s_m" then c.damper_bump_slow_n_s_m
  else if f = "damper_bump_fast_n_s_m" then c.damper_bump_fast_n_s_m
  else if f = "damper_rebound_slow_n_s_m" then c.damper_rebound_slow_n_s_m
  else if f = "damper_rebound_fast_n_s_m" then c.damper_rebound_fast_n_s_m
  else none

/-- Corner dereference: a value is produced only when the corner block is
present and a fourth path segment exists (mapping.cpp line 135). -/
def getCornerPart : Option CornerSuspension → List String → Option ℚ
  | some c, f :: _ => getCornerField c f
  | _, _ => none

/-- Suspension branch (mapping.cpp lines 124-153): corner names first, then
the shared anti-roll-bar / heave fields.  Corner and shared names are
disjoint, so the C++ fall-through from an unmatched corner-leaf name to
the shared-field tests (which then all fail) is observationally the
`none` of `getCornerPart`. -/
def getSuspValue (su : Suspension) : List String → Option ℚ
  | c :: restc =>
    if c = "front_left" then getCornerPart su.front_left restc
    else if c = "front_right" then getCornerPart su.front_right restc
    else if c = "rear_left" then getCornerPart su.rear_left restc
    else if c = "rear_right" then getCornerPart su.rear_right restc
    else if c = "front_arb" then su.front_arb
    else if c = "rear_arb" then su.rear_arb
    else if c = "heave_spring_n_mm" then su.heave_spring_n_mm
    else none
  | [] => none

/-- Tires leaf lookup (mapping.cpp lines 160-164). -/
def getTiresField (t : Tires) (f : String) : Option ℚ :=
  if f = "pressure_fl_kpa" then t.pressure_fl_kpa
  else if f = "pressure_fr_kpa" then t.pressure_fr_kpa
  else if f = "pressure_rl_kpa" then t.pressure_rl_kpa
  else if f = "pressure_rr_kpa" then t.pressure_rr_kpa
  else if f = "stagger_mm" then t.stagger_mm
  else none

/-- Drivetrain leaf lookup (mapping.cpp lines 172-177); the integer
clutch-plate count is cast to the scalar type. -/
def getDrivetrainField (d : Drivetrain) (f : String) : Option ℚ :=
  if f = "diff_preload_nm" then d.diff_preload_nm
  else if f = "diff_power_ramp_pct" then d.diff_power_ramp_pct
  else if f = "diff_coast_ramp_pct" then d.diff_coast_ramp_pct
  else if f = "final_drive_ratio" then Drivetrain.final_drive_ratio d
  else if f = "lsd_clutch_plates" then d.lsd_clutch_plates.map (fun n => (n : ℚ))
  else none

/-- Brakes leaf lookup (mapping.cpp lines 185-186). -/
def getBrakesField (b : Brakes) (f : String) : Option ℚ :=
  if f = "brake_bias_pct" then b.brake_bias_pct
  else if f = "max_force_n" then b.max_force_n
  else none

/-- Electronics leaf lookup (mapping.cpp lines 194-200). -/
def getElectronicsField (e : Electronics) (f : String) : Option ℚ :=
  if f = "tc_level" then e.tc_level.map (fun n => (n : ℚ))
  else if f = "abs_level" then e.abs_level.map (fun n => (n : ℚ))
  else if f = "engine_map" then e.engine_map.map (fun n => (n : ℚ))
  else if f = "pit_limiter_kph" then e.pit_limiter_kph
  else none

/-- Fuel leaf lookup (mapping.cpp lines 208-211). -/
def getFuelField (fu : Fuel) (f : String) : Option ℚ :=
  if f = "start_fuel_l" then fu.start_fuel_l
  else if f = "per_lap_consumption_l" then fu.per_lap_consumption_l
  else if f = "stint_target_laps" then fu.stint_target_laps.map (fun n => (n : ℚ))
  else none

/-- Model of `MappingEngine::get_value` (mapping.cpp lines 95-215).  Note
that the source has no branch for the `gearing` section: every
`setup.gearing.*` path falls through to the final `return std::nullopt`. -/
def get_value (o : ORSF) (path : String) : Option ℚ :=
  match split_path path with
  | "setup" :: sec :: rest =>
    if sec = "aero" then
      match o.setup.aero, rest with
      | some a, f :: _ => getAeroField a f
      | _, _ => none
    else if sec = "suspension" then
      match o.setup.suspension with
      | some su => getSuspValue su rest
      | none => none
    else if sec = "tires" then
      match o.setup.tires, rest with
      | some t, f :: _ => getTiresField t f
      | _, _ => none
    else if sec = "drivetrain" then
      match o.setup.drivetrain, rest with
      | some d, f :: _ => getDrivetrainField d f
      | _, _ => none
    else if sec = "brakes" then
      match o.setup.brakes, rest with
      | some b, f :: _ => getBrakesField b f
      | _, _ => none
    else if sec = "electronics" then
      match o.setup.electronics, rest with
      | some e, f :: _ => getElectronicsField e f
      | _, _ => none
    else if sec = "fuel" then
      match o.setup.fuel, rest with
      | some fu, f :: _ => getFuelField fu f
      | _, _ => none
    else none
  | _ => none

/-! ## Path addressing: set_value (mapping.cpp lines 217-272)

The source handles only the `aero`, `tires` and `brakes` sections (its
last line is the comment "Add more sections as needed..."); any other
path, malformed or not, is a silent no-op.  In a handled section the
absent subsystem container is default-constructed before the leaf name is
examined, so an unknown leaf still materialises the empty container. -/

/-- Aero leaf assignment (mapping.cpp lines 234-243); an unknown leaf name
leaves the record unchanged. -/
def setAeroField (a : Aerodynamics) (f : String) (v : ℚ) : Aerodynamics :=
  if f = "front_wing" then { a with front_wing := some v }
  else if f = "rear_wing" then { a with rear_wing := some v }
  else if f = "front_downforce_n" then { a with front_downforce_n := some v }
  else if f = "rear_downforce_n" then { a with rear_downforce_n := some v }
  else if f = "front_ride_height_mm" then { a with front_ride_height_mm := some v }
  else if f = "rear_ride_height_mm" then { a with rear_ride_height_mm := some v }
  else if f = "rake_mm" then { a with rake_mm := some v }
  else if f = "brake_duct_front_pct" then { a with brake_duct_front_pct := some v }
  else if f = "brake_duct_rear_pct" then { a with brake_duct_rear_pct := some v }
  else if f = "radiator_opening_pct" then { a with radiator_opening_pct := some v }
  else a

/-- Tires leaf assignment (mapping.cpp lines 253-257). -/
def setTiresField (t : Tires) (f : String) (v : ℚ) : Tires :=
  if f = "pressure_fl_kpa" then { t with pressure_fl_kpa := some v }
  else if f = "pressure_fr_kpa" then { t with pressure_fr_kpa := some v }
  else if f = "pressure_rl_kpa" then { t with pressure_rl_kpa := some v }
  else if f = "pressure_rr_kpa" then { t with pressure_rr_kpa := some v }
  else if f = "stagger_mm" then { t with stagger_mm := some v }
  else t

/-- Brakes leaf assignment (mapping.cpp lines 267-268). -/
def setBrakesField (b : Brakes) (f : String) (v : ℚ) : Brakes :=
  if f = "brake_bias_pct" then { b with brake_bias_pct := some v }
  else if f = "max_force_n" then { b with max_force_n := some v }
  else b

/-- Model of `MappingEngine::set_value` (mapping.cpp lines 217-272),
returning the updated document (the C++ mutates in place). -/
def set_value (o : ORSF) (path : String) (v : ℚ) : ORSF :=
  match split_path path with
  | "setup" :: sec :: f :: _ =>
    if sec = "aero" then
      { o with setup := { o.setup with aero := some (setAeroField (o.setup.aero.getD {}) f v) } }
    else if sec = "tires" then
      { o with setup := { o.setup with tires := some (setTiresField (o.setup.tires.getD {}) f v) } }
    else if sec = "brakes" then
      { o with setup := { o.setup with brakes := some (setBrakesField (o.setup.brakes.getD {}) f v) } }
    else o
  | _ => o

/-! ## Flatten and inflate (mapping.cpp lines 11-36 and 282-386) -/

/-- Model of `MappingEngine::add_optional` for scalar leaves. -/
def addOpt (flat : FlatSetup) (k : String) (v : Option ℚ) : FlatSetup :=
  match v with
  | some x => flatInsert flat k x
  | none => flat

/-- Model of `MappingEngine::add_optional` for integer leaves
(`static_cast<double>`). -/
def addOptInt (flat : FlatSetup) (k : String) (v : Option ℤ) : FlatSetup :=
  match v with
  | some n => flatInsert flat k (n : ℚ)
  | none => flat

/-- Model of `flatten_aero` (mapping.cpp lines 282-295). -/
def flatten_aero (aero : Option Aerodynamics) (flat : FlatSetup) : FlatSetup :=
  match aero with
  | none => flat
  | some a =>
    let flat := addOpt flat "setup.aero.front_wing" a.front_wing
    let flat := addOpt flat "setup.aero.rear_wing" a.rear_wing
    let flat := addOpt flat "setup.aero.front_downforce_n" a.front_downforce_n
    let flat := addOpt flat "setup.aero.rear_downforce_n" a.rear_downforce_n
    let flat := addOpt flat "setup.aero.front_ride_height_mm" a.front_ride_height_mm
    let flat := addOpt flat "setup.aero.rear_ride_height_mm" a.rear_ride_height_mm
    let flat := addOpt flat "setup.aero.rake_mm" a.rake_mm
    let flat := addOpt flat "setup.aero.brake_duct_front_pct" a.brake_duct_front_pct
    let flat := addOpt flat "setup.aero.brake_duct_rear_pct" a.brake_duct_rear_pct
    addOpt flat "setup.aero.radiator_opening_pct" a.radiator_opening_pct

/-- Model of `flatten_corner` (mapping.cpp lines 311-326). -/
def flatten_corner (corner : Option CornerSuspension) (pre : String) (flat : FlatSetup) : FlatSetup :=
  match corner with
  | none => flat
  | some c =>
    let flat := addOpt flat (pre ++ ".camber_deg") c.camber_deg
    let flat := addOpt flat (pre ++ ".toe_deg") c.toe_deg
    let flat := addOpt flat (pre ++ ".caster_deg") c.caster_deg
    let flat := addOpt flat (pre ++ ".spring_rate_n_mm") c.spring_rate_n_mm
    let flat := addOpt flat (pre ++ ".ride_height_mm") c.ride_height_mm
    let flat := addOpt flat (pre ++ ".bumpstop_gap_mm") c.bumpstop_gap_mm
    let flat := addOpt flat (pre ++ ".bumpstop_rate_n_mm") c.bumpstop_rate_n_mm
    let flat := addOpt flat (pre ++ ".packer_mm") c.packer_mm
    let flat := addOpt flat (pre ++ ".damper_bump_slow_n_s_m") c.damper_bump_slow_n_s_m
    let flat := addOpt flat (pre ++ ".damper_bump_fast_n_s_m") c.damper_bump_fast_n_s_m
    let flat := addOpt flat (pre ++ ".damper_rebound_slow_n_s_m") c.damper_rebound_slow_n_s_m
    addOpt flat (pre ++ ".damper_rebound_fast_n_s_m") c.damper_rebound_fast_n_s_m

/-- Model of `flatten_suspension` (mapping.cpp lines 297-309). -/
def flatten_suspension (susp : Option Suspension) (flat : FlatSetup) : FlatSetup :=
  match susp with
  | none => flat
  | some s =>
    let flat := flatten_corner s.front_left "setup.suspension.front_left" flat
    let flat := flatten_corner s.front_right "setup.suspension.front_right" flat
    let flat := flatten_corner s.rear_left "setup.suspension.rear_left" flat
    let flat := flatten_corner s.rear_right "setup.suspension.rear_right" flat
    let flat := addOpt flat "setup.suspension.front_arb" s.front_arb
    let flat := addOpt flat "setup.suspension.rear_arb" s.rear_arb
    let flat := addOpt flat "setup.suspension.heave_spring_n_mm" s.heave_spring_n_mm
    addOpt flat "setup.suspension.heave_packer_mm" s.heave_packer_mm

/-- Model of `flatten_tires` (mapping.cpp lines 328-336). -/
def flatten_tires (tires : Option Tires) (flat : FlatSetup) : FlatSetup :=
  match tires with
  | none => flat
  | some t =>
    let flat := addOpt flat "setup.tires.pressure_fl_kpa" t.pressure_fl_kpa
    let flat := addOpt flat "setup.tires.pressure_fr_kpa" t.pressure_fr_kpa
    let flat := addOpt flat "setup.tires.pressure_rl_kpa" t.pressure_rl_kpa
    let flat := addOpt flat "setup.tires.pressure_rr_kpa" t.pressure_rr_kpa
    addOpt flat "setup.tires.stagger_mm" t.stagger_mm

/-- Model of `flatten_drivetrain` (mapping.cpp lines 338-346). -/
def flatten_drivetrain (dt : Option Drivetrain) (flat : FlatSetup) : FlatSetup :=
  match dt with
  | none => flat
  | some d =>
    let flat := addOpt flat "setup.drivetrain.diff_preload_nm" d.diff_preload_nm
    let flat := addOpt flat "setup.drivetrain.diff_power_ramp_pct" d.diff_power_ramp_pct
    let flat := addOpt flat "setup.drivetrain.diff_coast_ramp_pct" d.diff_coast_ramp_pct
    let flat := addOpt flat "setup.drivetrain.final_drive_ratio" ( Drivetrain.final_drive_ratio d)
    addOptInt flat "setup.drivetrain.lsd_clutch_plates" d.lsd_clutch_plates

/-- Gear-ratio loop of `flatten_gearing` (mapping.cpp lines 353-355):
entry `i` is emitted under `setup.gearing.gear_<i>`. -/
def flattenGears (i : ℕ) (rs : List ℚ) (flat : FlatSetup) : FlatSetup :=
  match rs with
  | [] => flat
  | r :: rest => flattenGears (i + 1) rest (flatInsert flat ("setup.gearing.gear_" ++ Nat.repr i) r)

/-- Model of `flatten_gearing` (mapping.cpp lines 348-359). -/
def flatten_gearing (gearing : Option Gearing) (flat : FlatSetup) : FlatSetup :=
  match gearing with
  | none => flat
  | some g =>
    let flat :=
      match g.gear_ratios with
      | some rs => flattenGears 0 rs flat
      | none => flat
    addOpt flat "setup.gearing.reverse_ratio" ( Gearing.reverse_ratio g)

/-- Model of `flatten_brakes` (mapping.cpp lines 361-366). -/
def flatten_brakes (brakes : Option Brakes) (flat : FlatSetup) : FlatSetup :=
  match brakes with
  | none => flat
  | some b =>
    let flat := addOpt flat "setup.brakes.brake_bias_pct" b.brake_bias_pct
    addOpt flat "setup.brakes.max_force_n" b.max_force_n

/-- Model of `flatten_electronics` (mapping.cpp lines 368-377). -/
def flatten_electronics (elec : Option Electronics) (flat : FlatSetup) : FlatSetup :=
  match elec with
  | none => flat
  | some e =>
    let flat := addOptInt flat "setup.electronics.tc_level" e.tc_level
    let flat := addOptInt flat "setup.electronics.tc2_level" e.tc2_level
    let flat := addOptInt flat "setup.electronics.abs_level" e.abs_level
    let flat := addOptInt flat "setup.electronics.engine_map" e.engine_map
    let flat := addOptInt flat "setup.electronics.engine_brake_level" e.engine_brake_level
    addOpt flat "setup.electronics.pit_limiter_kph" e.pit_limiter_kph

/-- Model of `flatten_fuel` (mapping.cpp lines 379-386). -/
def flatten_fuel (fuel : Option Fuel) (flat : FlatSetup) : FlatSetup :=
  match fuel with
  | none => flat
  | some fu =>
    let flat := addOpt flat "setup.fuel.start_fuel_l" fu.start_fuel_l
    let flat := addOpt flat "setup.fuel.per_lap_consumption_l" fu.per_lap_consumption_l
    let flat := addOptInt flat "setup.fuel.stint_target_laps" fu.stint_target_laps
    addOptInt flat "setup.fuel.mixture_setting" fu.mixture_setting

/-- Model of `MappingEngine::flatten_orsf` (mapping.cpp lines 11-24). -/
def flatten_orsf (o : ORSF) : FlatSetup :=
  let flat := emptyFlat
  let flat := flatten_aero o.setup.aero flat
  let flat := flatten_suspension o.setup.suspension flat
  let flat := flatten_tires o.setup.tires flat
  let flat := flatten_drivetrain o.setup.drivetrain flat
  let flat := flatten_gearing o.setup.gearing flat
  let flat := flatten_brakes o.setup.brakes flat
  let flat := flatten_electronics o.setup.electronics flat
  flatten_fuel o.setup.fuel flat

/-- Model of `MappingEngine::inflate_orsf` (mapping.cpp lines 26-36): one
`set_value` per flat entry, iterating in `std::map` key order. -/
def inflate_orsf (flat : FlatSetup) (tmpl : ORSF) : ORSF :=
  flat.foldl (fun acc kv => set_value acc kv.1 kv.2) tmpl

/-! ## Declarative field mappings (mapping.hpp lines 24-41, mapping.cpp 38-93) -/

/-- A declarative field mapping; transforms are plain scalar functions
(the `TransformFunc` closures of the source). -/
structure FieldMapping where
  orsf_path : String
  native_key : String
  to_native : Option (ℚ → ℚ) := none
  to_orsf : Option (ℚ → ℚ) := none
  required : Bool := false

/-- Apply an optional transform; the identity when none is declared. -/
def applyT (t : Option (ℚ → ℚ)) (v : ℚ) : ℚ :=
  match t with
  | some f => f v
  | none => v

/-- Loop body of `MappingEngine::map_to_native` (mapping.cpp lines 44-61);
the thrown `std::runtime_error` is an `Except.error`. -/
def map_to_native_go (o : ORSF) : List FieldMapping → FlatSetup → Except String FlatSetup
  | [], acc => Except.ok acc
  | m :: rest, acc =>
    match get_value o m.orsf_path with
    | some v => map_to_native_go o rest (flatInsert acc m.native_key (applyT m.to_native v))
    | none =>
      if m.required then Except.error ("Required field missing: " ++ m.orsf_path)
      else map_to_native_go o rest acc

/-- Model of `MappingEngine::map_to_native` (mapping.cpp lines 38-64). -/
def map_to_native (o : ORSF) (mappings : List FieldMapping) : Except String FlatSetup :=
  map_to_native_go o mappings emptyFlat

/-- Loop body of `MappingEngine::map_to_orsf` (mapping.cpp lines 73-90). -/
def map_to_orsf_go (native : FlatSetup) : List FieldMapping → ORSF → Except String ORSF
  | [], r => Except.ok r
  | m :: rest, r =>
    match flatFind native m.native_key with
    | some v => map_to_orsf_go native rest (set_value r m.orsf_path (applyT m.to_orsf v))
    | none =>
      if m.required then Except.error ("Required native field missing: " ++ m.native_key)
      else map_to_orsf_go native rest r

/-- Model of `MappingEngine::map_to_orsf` (mapping.cpp lines 66-93). -/
def map_to_orsf (native : FlatSetup) (mappings : List FieldMapping) (tmpl : ORSF) : Except String ORSF :=
  map_to_orsf_go native mappings tmpl

/-- The first mapping in declaration order that is required and whose
canonical value is absent, if any; `map_to_native` aborts exactly there. -/
def firstReqMissing (o : ORSF) : List FieldMapping → Option FieldMapping
  | [] => none
  | m :: rest =>
    if m.required && (get_value o m.orsf_path).isNone then some m
    else firstReqMissing o rest

/-- The first mapping in declaration order that is required and whose
native key is absent from the input map, if any. -/
def firstReqMissingNat (native : FlatSetup) : List FieldMapping → Option FieldMapping
  | [] => none
  | m :: rest =>
    if m.required && (flatFind native m.native_key).isNone then some m
    else firstReqMissingNat native rest

/-- Exception-free emission pass of `map_to_native`: transform and emit
every mapping whose canonical value is present, skip the rest. -/
def emit_native (o : ORSF) : List FieldMapping → FlatSetup → FlatSetup
  | [], acc => acc
  | m :: rest, acc =>
    match get_value o m.orsf_path with
    | some v => emit_native o rest (flatInsert acc m.native_key (applyT m.to_native v))
    | none => emit_native o rest acc

/-- Exception-free emission pass of `map_to_orsf`: reverse-transform and
write every mapping whose native key is present, skip the rest. -/
def emit_orsf (native : FlatSetup) : List FieldMapping → ORSF → ORSF
  | [], r => r
  | m :: rest, r =>
    match flatFind native m.native_key with
    | some v => emit_orsf native rest (set_value r m.orsf_path (applyT m.to_orsf v))
    | none => emit_orsf native rest r

/-! ## Unit converter (utils.cpp lines 16-118, utils.hpp lines 16-57)

Named `Unit'` because `Unit` is taken by the Lean prelude. -/

/-- The unit enumeration (utils.hpp lines 16-57). -/
inductive Unit' where
  | KPA | PSI | BAR
  | N_MM | LB_IN
  | N_S_M | LB_S_IN
  | MM | INCHES | CM
  | CELSIUS | FAHRENHEIT | KELVIN
  | NM | LB_FT
  | NEWTONS | POUNDS
  | KPH | MPH | MS
  | LITERS | GALLONS_US | GALLONS_UK
deriving DecidableEq

/-- The dimension families of section 4.1 of the specification, as grouped
in the source's enum and conversion tables. -/
inductive UnitDim where
  | pressure | springRate | damping | length | temperature
  | torque | force | speed | volume
deriving DecidableEq

/-- Dimension family of each unit (the comment groups of utils.hpp/cpp). -/
def unitDim : Unit' → UnitDim
  | .KPA | .PSI | .BAR => .pressure
  | .N_MM | .LB_IN => .springRate
  | .N_S_M | .LB_S_IN => .damping
  | .MM | .INCHES | .CM => .length
  | .CELSIUS | .FAHRENHEIT | .KELVIN => .temperature
  | .NM | .LB_FT => .torque
  | .NEWTONS | .POUNDS => .force
  | .KPH | .MPH | .MS => .speed
  | .LITERS | .GALLONS_US | .GALLONS_UK => .volume

/-- Model of `UnitConverter::to_base` (utils.cpp lines 24-70). -/
def to_base (value : ℚ) (u : Unit') : ℚ :=
  match u with
  | .KPA => value
  | .PSI => value * 6.89476
  | .BAR => value * 100
  | .N_MM => value
  | .LB_IN => value * 0.175127
  | .N_S_M => value
  | .LB_S_IN => value * 175.127
  | .MM => value
  | .INCHES => value * 25.4
  | .CM => value * 10
  | .CELSIUS => value
  | .FAHRENHEIT => (value - 32) * 5 / 9
  | .KELVIN => value - 273.15
  | .NM => value
  | .LB_FT => value * 1.35582
  | .NEWTONS => value
  | .POUNDS => value * 4.44822
  | .KPH => value
  | .MPH => value * 1.60934
  | .MS => value * 3.6
  | .LITERS => value
  | .GALLONS_US => value * 3.78541
  | .GALLONS_UK => value * 4.54609

/-- Model of `UnitConverter::from_base` (utils.cpp lines 72-118). -/
def from_base (value : ℚ) (u : Unit') : ℚ :=
  match u with
  | .KPA => value
  | .PSI => value / 6.89476
  | .BAR => value / 100
  | .N_MM => value
  | .LB_IN => value / 0.175127
  | .N_S_M => value
  | .LB_S_IN => value / 175.127
  | .MM => value
  | .INCHES => value / 25.4
  | .CM => value / 10
  | .CELSIUS => value
  | .FAHRENHEIT => value * 9 / 5 + 32
  | .KELVIN => value + 273.15
  | .NM => value
  | .LB_FT => value / 1.35582
  | .NEWTONS => value
  | .POUNDS => value / 4.44822
  | .KPH => value
  | .MPH => value / 1.60934
  | .MS => value / 3.6
  | .LITERS => value
  | .GALLONS_US => value / 3.78541
  | .GALLONS_UK => value / 4.54609

/-- Model of `UnitConverter::convert` (utils.cpp lines 16-22). -/
def convert (value : ℚ) (src dst : Unit') : ℚ :=
  if src = dst then value
  else from_base (to_base value src) dst

/-! ## Lookup table converter (utils.cpp lines 137-197) -/

/-- A lookup-table entry (utils.hpp lines 81-86). -/
structure LUTEntry where
  input : ℚ
  output : ℚ
deriving DecidableEq

/-- Model of `LookupTableConverter::lerp` (utils.cpp lines 194-197),
including the degenerate-segment guard. -/
def lerp (x x0 x1 y0 y1 : ℚ) : ℚ :=
  if |x1 - x0| < 1e-10 then y0
  else y0 + (y1 - y0) * (x - x0) / (x1 - x0)

/-- The last entry of a non-empty table (`table_.back()`). -/
def lastEntry (a : LUTEntry) : List LUTEntry → LUTEntry
  | [] => a
  | b :: rest => lastEntry b rest

/-- The bracketing-segment search loop of `interpolate` (utils.cpp lines
154-162): return the first consecutive pair whose segment contains the
query, else fall back to the last entry's output. -/
def interpGo (v : ℚ) (a : LUTEntry) : List LUTEntry → ℚ
  | b :: rest =>
    if a.input ≤ v ∧ v ≤ b.input then lerp v a.input b.input a.output b.output
    else interpGo v b rest
  | [] => a.output

/-- Model of `LookupTableConverter::interpolate` (utils.cpp lines
144-163); the throw on an empty table is `none`. -/
def interpolate (t : List LUTEntry) (v : ℚ) : Option ℚ :=
  match t with
  | [] => none
  | a :: rest =>
    if v ≤ a.input then some a.output
    else if (lastEntry a rest).input ≤ v then some (lastEntry a rest).output
    else some (interpGo v a rest)

/-- The comparator the constructor and `reverse_lookup` sort with
(utils.cpp lines 140-141 and 175-176): strictly ascending table input. -/
abbrev entryLE (a b : LUTEntry) : Prop := a.input ≤ b.input

instance : DecidableRel entryLE := fun a b => inferInstanceAs (Decidable (a.input ≤ b.input))

instance : IsTotal LUTEntry entryLE := ⟨fun a b => le_total a.input b.input⟩

instance : IsTrans LUTEntry entryLE := ⟨fun _ _ _ h h' => le_trans h h'⟩

/-- Deterministic model of the constructor's sort: a stable insertion
sort.  `std::sort` itself only promises some permutation that is
ascending by input; `IsSortResult` below captures that contract, and
`sortEntries` is one of its permitted outcomes (for tables with distinct
keys the outcome is unique, so the deterministic model is exact there). -/
def sortEntries (l : List LUTEntry) : List LUTEntry :=
  List.insertionSort entryLE l

/-- Postcondition of `std::sort(table_.begin(), table_.end(), cmp)` with
`cmp a b = a.input < b.input`: the result is a permutation of the input
that is sorted with respect to `cmp` (consecutive entries satisfy
`¬ cmp b a`, i.e. ascending input).  Which permutation is produced when
inputs tie is unspecified by the C++ standard. -/
def IsSortResult (supplied t : List LUTEntry) : Prop :=
  t.Perm supplied ∧ t.Chain' entryLE

instance (supplied t : List LUTEntry) : Decidable (IsSortResult supplied t) :=
  inferInstanceAs (Decidable (And _ _))

/-- Model of `LookupTableConverter::reverse_lookup` (utils.cpp lines
165-192): swap every entry, re-sort by the (new) input field, and run the
same interpolation algorithm. -/
def reverse_lookup (t : List LUTEntry) (v : ℚ) : Option ℚ :=
  interpolate (sortEntries (t.map (fun e => ⟨e.output, e.input⟩))) v

/-! ## Validator (validator.cpp, validator.hpp)

Each C++ `validate_*` helper pushes findings into a shared vector; the
functional translation has each helper return its own finding list and
`validate` concatenate them in call order. -/

/-- Finding severity (validator.hpp lines 14-18). -/
inductive ValidationSeverity where
  | Error | Warning | Info
deriving DecidableEq

/-- Finding code (validator.hpp lines 21-28). -/
inductive ValidationCode where
  | Required | OutOfRange | InvalidFormat | Incompatible | Deprecated | SchemaInvalid
deriving DecidableEq

/-- A validation finding (validator.hpp lines 31-50). -/
structure ValidationError where
  severity : ValidationSeverity
  code : ValidationCode
  field : String
  message : String
  expected : Option String := none
  actual : Option String := none
deriving DecidableEq

/-- Diagnostic rendering of a scalar, standing in for the digit strings
`std::to_string(double)` / `operator<<` produce.  No theorem below
inspects the characters of a rendered scalar, so the exact format is
immaterial to every claim. -/
def fmtq (q : ℚ) : String :=
  toString q.num ++ "/" ++ toString q.den

/-! ### ISO-8601 shape check (utils.cpp lines 348-355)

Deterministic parser for the source's anchored regex
`\d{4}-\d{2}-\d{2}T\d{2}:\d{2}:\d{2}(\.\d{3})?(Z|[+-]\d{2}:\d{2})?`.
The regex is unambiguous (each optional group starts with a character no
later alternative accepts), so the greedy parse matches iff the regex
does. -/

/-- Consume exactly `n` decimal digits. -/
def takeDigits : ℕ → List Char → Option (List Char)
  | 0, cs => some cs
  | _ + 1, [] => none
  | n + 1, c :: cs => if c.isDigit then takeDigits n cs else none

/-- Consume exactly the character `ch`. -/
def takeLit (ch : Char) : List Char → Option (List Char)
  | [] => none
  | c :: cs => if c = ch then some cs else none

/-- The mandatory `YYYY-MM-DDTHH:MM:SS` prefix. -/
def isoCore (cs : List Char) : Option (List Char) :=
  (takeDigits 4 cs).bind fun cs =>
  (takeLit '-' cs).bind fun cs =>
  (takeDigits 2 cs).bind fun cs =>
  (takeLit '-' cs).bind fun cs =>
  (takeDigits 2 cs).bind fun cs =>
  (takeLit 'T' cs).bind fun cs =>
  (takeDigits 2 cs).bind fun cs =>
  (takeLit ':' cs).bind fun cs =>
  (takeDigits 2 cs).bind fun cs =>
  (takeLit ':' cs).bind fun cs =>
  takeDigits 2 cs

/-- The optional `.sss` milliseconds group. -/
def isoMillis : List Char → Option (List Char)
  | '.' :: cs => takeDigits 3 cs
  | cs => some cs

/-- The optional `Z` / `+HH:MM` / `-HH:MM` zone group. -/
def isoZone : List Char → Option (List Char)
  | 'Z' :: cs => some cs
  | '+' :: cs => ((takeDigits 2 cs).bind (takeLit ':')).bind (takeDigits 2)
  | '-' :: cs => ((takeDigits 2 cs).bind (takeLit ':')).bind (takeDigits 2)
  | cs => some cs

/-- Model of `DateTimeUtils::is_valid_iso8601` (utils.cpp lines 348-355):
the whole string must be consumed (`std::regex_match` anchors both ends). -/
def is_valid_iso8601 (s : String) : Bool :=
  match ((isoCore s.data).bind isoMillis).bind isoZone with
  | some [] => true
  | _ => false

/-! ### Check helpers (validator.cpp lines 476-571) -/

/-- Model of `Validator::check_required` (validator.cpp lines 476-489). -/
def check_required (field : String) (present : Bool) : List ValidationError :=
  if present then []
  else [⟨.Error, .Required, field, "Required field is missing", none, none⟩]

/-- Model of `Validator::check_range` (validator.cpp lines 491-512); the
C++ severity parameter defaults to `Error` at call sites that omit it. -/
def check_range (field : String) (value lo hi : ℚ) (sev : ValidationSeverity) : List ValidationError :=
  if value < lo ∨ value > hi then
    [⟨sev, .OutOfRange, field, "Value out of range",
      some (fmtq lo ++ " to " ++ fmtq hi), some (fmtq value)⟩]
  else []

/-- Model of `Validator::check_percentage` (validator.cpp lines 514-520). -/
def check_percentage (field : String) (value : ℚ) : List ValidationError :=
  check_range field value 0 100 .Error

/-- Model of `Validator::check_positive` (validator.cpp lines 522-537). -/
def check_positive (field : String) (value : ℚ) : List ValidationError :=
  if value ≤ 0 then
    [⟨.Error, .OutOfRange, field, "Value must be positive", some "> 0", some (fmtq value)⟩]
  else []

/-- Model of `Validator::check_non_negative` (validator.cpp lines 539-554). -/
def check_non_negative (field : String) (value : ℚ) : List ValidationError :=
  if value < 0 then
    [⟨.Error, .OutOfRange, field, "Value must be non-negative", some ">= 0", some (fmtq value)⟩]
  else []

/-- Model of `Validator::check_iso8601` (validator.cpp lines 556-571). -/
def check_iso8601 (field : String) (value : String) : List ValidationError :=
  if is_valid_iso8601 value then []
  else
    [⟨.Warning, .InvalidFormat, field, "Invalid ISO8601 timestamp format",
      some "YYYY-MM-DDTHH:MM:SS(.sss)?(Z|[+-]HH:MM)?", some value⟩]

/-- Run a check on an optional leaf, as the C++ `if (x.has_value())`
guards do. -/
def onOpt (v : Option ℚ) (f : ℚ → List ValidationError) : List ValidationError :=
  match v with
  | some x => f x
  | none => []

/-! ### Section validators (validator.cpp lines 52-470) -/

/-- Model of `Validator::validate_schema` (validator.cpp lines 52-63). -/
def validate_schema (o : ORSF) : List ValidationError :=
  if o.schema ≠ "orsf://v1" then
    [⟨.Error, .SchemaInvalid, "schema", "Invalid schema version",
      some "orsf://v1", some o.schema⟩]
  else []

/-- Model of `Validator::validate_metadata` (validator.cpp lines 65-91);
the updated-vs-created ordering check compares the strings
lexicographically. -/
def validate_metadata (m : Metadata) : List ValidationError :=
  check_required "metadata.id" (!m.id.isEmpty) ++
  check_required "metadata.name" (!m.name.isEmpty) ++
  check_required "metadata.created_at" (!m.created_at.isEmpty) ++
  (if !m.created_at.isEmpty then check_iso8601 "metadata.created_at" m.created_at else []) ++
  (match m.updated_at with
   | some u => if !u.isEmpty then check_iso8601 "metadata.updated_at" u else []
   | none => []) ++
  (match m.updated_at with
   | some u =>
     if strLt u m.created_at then
       [⟨.Warning, .Incompatible, "metadata.updated_at",
         "Updated timestamp is before created timestamp", none, none⟩]
     else []
   | none => [])

/-- The allow-list of car classes (validator.cpp lines 99-102). -/
def valid_classes : List String :=
  ["GT3", "GTE", "LMP2", "LMDh", "GT4", "TCR", "F1", "F2", "F3", "F4", "Formula"]

/-- Model of `Validator::validate_car` (validator.cpp lines 93-121). -/
def validate_car (c : Car) : List ValidationError :=
  check_required "car.make" (!c.make.isEmpty) ++
  check_required "car.model" (!c.model.isEmpty) ++
  (match c.car_class with
   | some cls =>
     if valid_classes.contains cls then []
     else [⟨.Warning, .InvalidFormat, "car.class", "Unknown car class: " ++ cls, none, none⟩]
   | none => [])

/-- The allow-list of rubber levels (validator.cpp lines 146-148). -/
def valid_rubber : List String :=
  ["green", "low", "medium", "high", "saturated"]

/-- Model of `Validator::validate_context` (validator.cpp lines 123-166). -/
def validate_context (context : Option Context) : List ValidationError :=
  match context with
  | none => []
  | some ctx =>
    onOpt ctx.ambient_temp_c (fun v => check_range "context.ambient_temp_c" v (-50) 70 .Warning) ++
    onOpt ctx.track_temp_c (fun v => check_range "context.track_temp_c" v (-20) 80 .Warning) ++
    onOpt ctx.wetness (fun v => check_range "context.wetness" v 0 1 .Error) ++
    (match ctx.rubber with
     | some r =>
       if valid_rubber.contains r then []
       else [⟨.Warning, .InvalidFormat, "context.rubber", "Unknown rubber level: " ++ r, none, none⟩]
     | none => [])

/-- Model of `Validator::validate_aero` (validator.cpp lines 179-215). -/
def validate_aero (aero : Option Aerodynamics) : List ValidationError :=
  match aero with
  | none => []
  | some a =>
    onOpt a.front_ride_height_mm (check_positive "setup.aero.front_ride_height_mm") ++
    onOpt a.rear_ride_height_mm (check_positive "setup.aero.rear_ride_height_mm") ++
    onOpt a.brake_duct_front_pct (check_percentage "setup.aero.brake_duct_front_pct") ++
    onOpt a.brake_duct_rear_pct (check_percentage "setup.aero.brake_duct_rear_pct") ++
    onOpt a.radiator_opening_pct (check_percentage "setup.aero.radiator_opening_pct") ++
    onOpt a.front_downforce_n (check_non_negative "setup.aero.front_downforce_n") ++
    onOpt a.rear_downforce_n (check_non_negative "setup.aero.rear_downforce_n")

/-- Model of `Validator::validate_corner_suspension` (validator.cpp lines
233-284). -/
def validate_corner_suspension (corner : Option CornerSuspension) (nm : String) : List ValidationError :=
  match corner with
  | none => []
  | some c =>
    onOpt c.camber_deg (fun v => check_range (nm ++ ".camber_deg") v (-10) 5 .Warning) ++
    onOpt c.spring_rate_n_mm (check_positive (nm ++ ".spring_rate_n_mm")) ++
    onOpt c.ride_height_mm (check_positive (nm ++ ".ride_height_mm")) ++
    onOpt c.bumpstop_gap_mm (check_non_negative (nm ++ ".bumpstop_gap_mm")) ++
    onOpt c.bumpstop_rate_n_mm (check_positive (nm ++ ".bumpstop_rate_n_mm")) ++
    onOpt c.damper_bump_slow_n_s_m (check_non_negative (nm ++ ".damper_bump_slow_n_s_m")) ++
    onOpt c.damper_bump_fast_n_s_m (check_non_negative (nm ++ ".damper_bump_fast_n_s_m")) ++
    onOpt c.damper_rebound_slow_n_s_m (check_non_negative (nm ++ ".damper_rebound_slow_n_s_m")) ++
    onOpt c.damper_rebound_fast_n_s_m (check_non_negative (nm ++ ".damper_rebound_fast_n_s_m"))

/-- Model of `Validator::validate_suspension` (validator.cpp lines 217-231). -/
def validate_suspension (susp : Option Suspension) : List ValidationError :=
  match susp with
  | none => []
  | some s =>
    validate_corner_suspension s.front_left "setup.suspension.front_left" ++
    validate_corner_suspension s.front_right "setup.suspension.front_right" ++
    validate_corner_suspension s.rear_left "setup.suspension.rear_left" ++
    validate_corner_suspension s.rear_right "setup.suspension.rear_right" ++
    onOpt s.heave_spring_n_mm (check_positive "setup.suspension.heave_spring_n_mm")

/-- Model of `Validator::validate_tires` (validator.cpp lines 286-311). -/
def validate_tires (tires : Option Tires) : List ValidationError :=
  match tires with
  | none => []
  | some t =>
    onOpt t.pressure_fl_kpa (fun v => check_range "setup.tires.pressure_fl_kpa" v 50 400 .Warning) ++
    onOpt t.pressure_fr_kpa (fun v => check_range "setup.tires.pressure_fr_kpa" v 50 400 .Warning) ++
    onOpt t.pressure_rl_kpa (fun v => check_range "setup.tires.pressure_rl_kpa" v 50 400 .Warning) ++
    onOpt t.pressure_rr_kpa (fun v => check_range "setup.tires.pressure_rr_kpa" v 50 400 .Warning)

/-- Model of `Validator::validate_drivetrain` (validator.cpp lines 313-348). -/
def validate_drivetrain (dt : Option Drivetrain) : List ValidationError :=
  match dt with
  | none => []
  | some d =>
    onOpt d.diff_preload_nm (check_non_negative "setup.drivetrain.diff_preload_nm") ++
    onOpt d.diff_power_ramp_pct (check_percentage "setup.drivetrain.diff_power_ramp_pct") ++
    onOpt d.diff_coast_ramp_pct (check_percentage "setup.drivetrain.diff_coast_ramp_pct") ++
    onOpt ( Drivetrain.final_drive_ratio d) (check_positive "setup.drivetrain.final_drive_ratio") ++
    (match d.lsd_clutch_plates with
     | some n =>
       if n ≤ 0 then
         [⟨.Error, .OutOfRange, "setup.drivetrain.lsd_clutch_plates",
           "LSD clutch plates must be positive", none, none⟩]
       else []
     | none => [])

/-- The Warning emitted for an empty gear-ratio list (validator.cpp lines
358-365). -/
def gearEmptyWarning : ValidationError :=
  ⟨.Warning, .InvalidFormat, "setup.gearing.gear_ratios", "Gear ratios array is empty", none, none⟩

/-- The Error emitted for a non-positive gear ratio at index `i`
(validator.cpp lines 368-377). -/
def mkGearError (i : ℕ) : ValidationError :=
  ⟨.Error, .OutOfRange, "setup.gearing.gear_ratios[" ++ Nat.repr i ++ "]",
    "Gear ratio must be positive", none, none⟩

/-- The per-index loop of `validate_gearing` (validator.cpp lines
368-377), carrying the running index. -/
def gearErrors (i : ℕ) : List ℚ → List ValidationError
  | [] => []
  | r :: rest => (if r ≤ 0 then [mkGearError i] else []) ++ gearErrors (i + 1) rest

/-- Model of `Validator::validate_gearing` (validator.cpp lines 350-384). -/
def validate_gearing (gearing : Option Gearing) : List ValidationError :=
  match gearing with
  | none => []
  | some g =>
    (match g.gear_ratios with
     | none => []
     | some rs => (if rs.isEmpty then [gearEmptyWarning] else []) ++ gearErrors 0 rs) ++
    (match Gearing.reverse_ratio g with
     | some rr => check_positive "setup.gearing.reverse_ratio" rr
     | none => [])

/-- Model of `Validator::validate_brakes` (validator.cpp lines 386-400). -/
def validate_brakes (brakes : Option Brakes) : List ValidationError :=
  match brakes with
  | none => []
  | some b =>
    onOpt b.brake_bias_pct (check_percentage "setup.brakes.brake_bias_pct") ++
    onOpt b.max_force_n (check_positive "setup.brakes.max_force_n")

/-- Model of `Validator::validate_electronics` (validator.cpp lines 402-411). -/
def validate_electronics (elec : Option Electronics) : List ValidationError :=
  match elec with
  | none => []
  | some e =>
    onOpt e.pit_limiter_kph (check_positive "setup.electronics.pit_limiter_kph")

/-- Model of `Validator::validate_fuel` (validator.cpp lines 413-439). -/
def validate_fuel (fuel : Option Fuel) : List ValidationError :=
  match fuel with
  | none => []
  | some fu =>
    onOpt fu.start_fuel_l (check_non_negative "setup.fuel.start_fuel_l") ++
    onOpt fu.per_lap_consumption_l (check_positive "setup.fuel.per_lap_consumption_l") ++
    (match fu.stint_target_laps with
     | some n =>
       if n ≤ 0 then
         [⟨.Error, .OutOfRange, "setup.fuel.stint_target_laps",
           "Stint target laps must be positive", none, none⟩]
       else []
     | none => [])

/-- Model of `Validator::validate_setup` (validator.cpp lines 168-177). -/
def validate_setup (s : Setup) : List ValidationError :=
  validate_aero s.aero ++
  validate_suspension s.suspension ++
  validate_tires s.tires ++
  validate_drivetrain s.drivetrain ++
  validate_gearing s.gearing ++
  validate_brakes s.brakes ++
  validate_electronics s.electronics ++
  validate_fuel s.fuel

/-- Model of `Validator::validate_cross_field` (validator.cpp lines
441-470): the ambient-vs-track temperature consistency check. -/
def validate_cross_field (o : ORSF) : List ValidationError :=
  match o.context with
  | none => []
  | some ctx =>
    match ctx.ambient_temp_c, ctx.track_temp_c with
    | some ambient, some track =>
      (if track < ambient - 5 then
        [⟨.Warning, .Incompatible, "context.track_temp_c",
          "Track temperature is significantly lower than ambient temperature", none, none⟩]
       else []) ++
      (if track > ambient + 40 then
        [⟨.Warning, .Incompatible, "context.track_temp_c",
          "Track temperature is unusually high compared to ambient", none, none⟩]
       else [])
    | _, _ => []

/-- Model of `Validator::validate` (validator.cpp lines 39-50): each
sub-validator appends its findings to the shared vector in call order. -/
def validate (o : ORSF) : List ValidationError :=
  validate_schema o ++
  validate_metadata o.metadata ++
  validate_car o.car ++
  validate_context o.context ++
  validate_setup o.setup ++
  validate_cross_field o

/-! ## Concrete documents and mapping lists used by the theorems -/

/-- A document whose gearing subsystem holds the ratio list `[3.5, 2.8]`. -/
def gearDoc : ORSF :=
  { setup := { gearing := some { gear_ratios := some [3.5, 2.8] } } }

/-- A document with valid metadata and car but an invalid schema string
and a track temperature well below ambient. -/
def demoDoc : ORSF :=
  { schema := "orsf://v0",
    metadata := { id := "setup-1", name := "Demo", created_at := "2024-01-01T00:00:00Z" },
    car := { make := "Porsche", model := "911 GT3 R" },
    context := some { ambient_temp_c := some 25, track_temp_c := some 10 } }

/-- A single required mapping whose canonical field is absent from a
default-constructed document. -/
def demoMs : List FieldMapping :=
  [{ orsf_path := "setup.aero.front_wing", native_key := "wing", required := true }]

/-- The schema finding `validate` produces for `demoDoc`. -/
def schemaFinding : ValidationError :=
  ⟨.Error, .SchemaInvalid, "schema", "Invalid schema version",
    some "orsf://v1", some "orsf://v0"⟩

/-- The cross-field finding `validate` produces for `demoDoc`. -/
def trackLowWarning : ValidationError :=
  ⟨.Warning, .Incompatible, "context.track_temp_c",
    "Track temperature is significantly lower than ambient temperature", none, none⟩

/-! ## Helper lemmas -/

/-- Unfolding of the gear-ratio loop into a filter over indexed entries. -/
theorem gearErrors_eq_filterMap (rs : List ℚ) :
    ∀ i, gearErrors i rs =
      (rs.enumFrom i).filterMap (fun p => if p.2 ≤ 0 then some (mkGearError p.1) else none) := by
  induction rs with
  | nil => intro i; rfl
  | cons r rest ih =>
    intro i
    simp only [gearErrors, List.enumFrom, List.filterMap_cons, ih (i + 1)]
    by_cases h : r ≤ 0 <;> simp [h]

/-- Evaluation of the metadata checks on the demo document. -/
theorem demo_metadata_findings : validate_metadata demoDoc.metadata = [] := rfl

/-- Evaluation of the car checks on the demo document. -/
theorem demo_car_findings : validate_car demoDoc.car = [] := rfl

/-- Evaluation of the setup checks on the demo document. -/
theorem demo_setup_findings : validate_setup demoDoc.setup = [] := rfl

/-- Evaluation of the schema check on the demo document. -/
theorem demo_schema_findings : validate_schema demoDoc = [schemaFinding] := rfl

/-- Evaluation of the context checks on the demo document: both
temperatures sit inside their plausibility ranges. -/
theorem demo_context_findings : validate_context demoDoc.context = [] := by
  norm_num [demoDoc, validate_context, onOpt, check_range]

/-- Evaluation of the cross-field check on the demo document: the track is
more than five degrees colder than ambient. -/
theorem demo_cross_findings : validate_cross_field demoDoc = [trackLowWarning] := by
  norm_num [demoDoc, validate_cross_field, trackLowWarning]

/-- When the degenerate-segment guard fails on an ordered segment, the
segment has positive width. -/
theorem lerp_guard_pos {x0 x1 : ℚ} (hle : x0 ≤ x1) (hguard : ¬ |x1 - x0| < 1e-10) :
    0 < x1 - x0 := by
  rcases eq_or_lt_of_le hle with he | hlt
  · exfalso
    apply hguard
    rw [he]
    norm_num
  · exact sub_pos.2 hlt

/-- On an ordered segment the interpolated value lies between the two
endpoint outputs. -/
theorem lerp_mem {x x0 x1 y0 y1 : ℚ} (h0 : x0 ≤ x) (h1 : x ≤ x1) (hy : y0 ≤ y1) :
    y0 ≤ lerp x x0 x1 y0 y1 ∧ lerp x x0 x1 y0 y1 ≤ y1 := by
  unfold lerp
  split_ifs with hguard
  · exact ⟨le_refl _, hy⟩
  · have hx01 : (0 : ℚ) < x1 - x0 := lerp_guard_pos (h0.trans h1) hguard
    constructor
    · have hnn : 0 ≤ (y1 - y0) * (x - x0) / (x1 - x0) :=
        div_nonneg (mul_nonneg (by linarith) (by linarith)) (le_of_lt hx01)
      linarith
    · have hmul : (y1 - y0) * (x - x0) ≤ (y1 - y0) * (x1 - x0) :=
        mul_le_mul_of_nonneg_left (by linarith) (by linarith)
      have hdiv : (y1 - y0) * (x - x0) / (x1 - x0) ≤ y1 - y0 := by
        rw [div_le_iff hx01]
        linarith
      linarith

/-- On an ordered segment with ordered outputs the interpolant is
monotone in the query. -/
theorem lerp_mono {x y x0 x1 y0 y1 : ℚ} (h0 : x0 ≤ x) (hxy : x ≤ y) (h1 : y ≤ x1)
    (hy : y0 ≤ y1) : lerp x x0 x1 y0 y1 ≤ lerp y x0 x1 y0 y1 := by
  unfold lerp
  split_ifs with hguard
  · exact le_refl _
  · have hx01 : (0 : ℚ) < x1 - x0 := lerp_guard_pos (h0.trans (hxy.trans h1)) hguard
    have hmul : (y1 - y0) * (x - x0) ≤ (y1 - y0) * (y - x0) :=
      mul_le_mul_of_nonneg_left (by linarith) (by linarith)
    have hdiv : (y1 - y0) * (x - x0) / (x1 - x0) ≤ (y1 - y0) * (y - x0) / (x1 - x0) := by
      apply div_le_div_of_nonneg_right hmul (le_of_lt hx01)
    linarith

/-- In a chain whose projections are non-decreasing, the head's projection
bounds the last entry's. -/
theorem chain'_head_le_last (f : LUTEntry → ℚ) :
    ∀ (rest : List LUTEntry) (a : LUTEntry),
      (a :: rest).Chain' (fun p q => f p ≤ f q) → f a ≤ f (lastEntry a rest) := by
  intro rest
  induction rest with
  | nil => intro a _; exact le_refl _
  | cons b r ih =>
    intro a h
    rw [List.chain'_cons] at h
    exact h.1.trans (ih b h.2)

/-- The segment-search loop returns a value between the head's and the
last entry's outputs whenever outputs are non-decreasing. -/
theorem interpGo_bounds :
    ∀ (rest : List LUTEntry) (a : LUTEntry) (v : ℚ),
      (a :: rest).Chain' (fun p q => p.output ≤ q.output) →
      a.output ≤ interpGo v a rest ∧ interpGo v a rest ≤ (lastEntry a rest).output := by
  intro rest
  induction rest with
  | nil => intro a v _; exact ⟨le_refl _, le_refl _⟩
  | cons b r ih =>
    intro a v h
    rw [List.chain'_cons] at h
    obtain ⟨hab, h'⟩ := h
    simp only [interpGo]
    split_ifs with hseg
    · have hm := lerp_mem hseg.1 hseg.2 hab
      exact ⟨hm.1, hm.2.trans (chain'_head_le_last LUTEntry.output r b h')⟩
    · have hb := ih b v h'
      exact ⟨hab.trans hb.1, hb.2⟩

/-- The segment-search loop is monotone in the query on `[head.input, ∞)`
whenever outputs are non-decreasing. -/
theorem interpGo_mono :
    ∀ (rest : List LUTEntry) (a : LUTEntry) (x y : ℚ),
      (a :: rest).Chain' (fun p q => p.output ≤ q.output) →
      a.input ≤ x → x ≤ y →
      interpGo x a rest ≤ interpGo y a rest := by
  intro rest
  induction rest with
  | nil => intro a x y _ _ _; exact le_refl _
  | cons b r ih =>
    intro a x y h hax hxy
    rw [List.chain'_cons] at h
    obtain ⟨hab, h'⟩ := h
    simp only [interpGo]
    by_cases hsx : a.input ≤ x ∧ x ≤ b.input
    · rw [if_pos hsx]
      by_cases hsy : a.input ≤ y ∧ y ≤ b.input
      · rw [if_pos hsy]
        exact lerp_mono hsx.1 hxy hsy.2 hab
      · rw [if_neg hsy]
        exact (lerp_mem hsx.1 hsx.2 hab).2.trans (interpGo_bounds r b y h').1
    · rw [if_neg hsx]
      have hbx : b.input ≤ x := by
        rcases le_or_lt x b.input with h1 | h1
        · exact absurd ⟨hax, h1⟩ hsx
        · exact le_of_lt h1
      have hsy : ¬ (a.input ≤ y ∧ y ≤ b.input) :=
        fun hy' => hsx ⟨hax, hxy.trans hy'.2⟩
      rw [if_neg hsy]
      exact ih b x y h' hbx hxy

/-- Looking up the key just inserted returns the inserted value. -/
theorem flatFind_insert_self (m : FlatSetup) (k : String) (v : ℚ) :
    flatFind (flatInsert m k v) k = some v := by
  induction m with
  | nil => simp [flatInsert, flatFind]
  | cons p rest ih =>
    obtain ⟨k', v'⟩ := p
    by_cases h : k = k'
    · simp [flatInsert, h, flatFind]
    · by_cases h2 : strLt k k'
      · simp [flatInsert, h, h2, flatFind]
      · simp [flatInsert, h, h2, flatFind, ih]

/-- Inserting one key leaves every other key's lookup unchanged. -/
theorem flatFind_insert_ne (m : FlatSetup) (k : String) (v : ℚ) (q : String) (h : q ≠ k) :
    flatFind (flatInsert m k v) q = flatFind m q := by
  induction m with
  | nil => simp [flatInsert, flatFind, h]
  | cons p rest ih =>
    obtain ⟨k0, v0⟩ := p
    by_cases h1 : k = k0
    · subst h1
      simp [flatInsert, flatFind, h]
    · by_cases h2 : strLt k k0
      · simp [flatInsert, h1, h2, flatFind, h]
      · by_cases h3 : q = k0 <;> simp [flatInsert, h1, h2, flatFind, h3, ih]

/-- The `map_to_native` loop either aborts at the first required-absent
mapping or completes the exception-free emission pass. -/
theorem map_to_native_go_eq (o : ORSF) :
    ∀ (ms : List FieldMapping) (acc : FlatSetup),
      map_to_native_go o ms acc =
        (match firstReqMissing o ms with
         | some m => Except.error ("Required field missing: " ++ m.orsf_path)
         | none => Except.ok (emit_native o ms acc)) := by
  intro ms
  induction ms with
  | nil => intro acc; rfl
  | cons m rest ih =>
    intro acc
    simp only [map_to_native_go, firstReqMissing, emit_native]
    cases hg : get_value o m.orsf_path with
    | some v => simp [hg, ih]
    | none => cases hr : m.required <;> simp [hg, hr, ih]

/-- The `map_to_orsf` loop either aborts at the first required-absent
native key or completes the exception-free write pass. -/
theorem map_to_orsf_go_eq (native : FlatSetup) :
    ∀ (ms : List FieldMapping) (r : ORSF),
      map_to_orsf_go native ms r =
        (match firstReqMissingNat native ms with
         | some m => Except.error ("Required native field missing: " ++ m.native_key)
         | none => Except.ok (emit_orsf native ms r)) := by
  intro ms
  induction ms with
  | nil => intro r; rfl
  | cons m rest ih =>
    intro r
    simp only [map_to_orsf_go, firstReqMissingNat, emit_orsf]
    cases hg : flatFind native m.native_key with
    | some v => simp [hg, ih]
    | none => cases hr : m.required <;> simp [hg, hr, ih]

/-- If the loop reports a mapping, that mapping is in the list, marked
required, and its canonical value is absent. -/
theorem firstReqMissing_spec (o : ORSF) :
    ∀ (ms : List FieldMapping) (m : FieldMapping), firstReqMissing o ms = some m →
      m ∈ ms ∧ m.required = true ∧ get_value o m.orsf_path = none := by
  intro ms
  induction ms with
  | nil => intro m h; simp [firstReqMissing] at h
  | cons m0 rest ih =>
    intro m h
    simp only [firstReqMissing] at h
    by_cases hc : m0.required && (get_value o m0.orsf_path).isNone
    · rw [if_pos hc] at h
      injection h with h'
      subst h'
      rw [Bool.and_eq_true] at hc
      obtain ⟨hr, hn⟩ := hc
      exact ⟨List.mem_cons_self _ _, hr, Option.isNone_iff_eq_none.1 hn⟩
    · rw [if_neg hc] at h
      obtain ⟨h1, h2, h3⟩ := ih m h
      exact ⟨List.mem_cons_of_mem _ h1, h2, h3⟩

/-- If the loop reports a mapping, it is in the list, required, and its
native key is absent from the input map. -/
theorem firstReqMissingNat_spec (native : FlatSetup) :
    ∀ (ms : List FieldMapping) (m : FieldMapping), firstReqMissingNat native ms = some m →
      m ∈ ms ∧ m.required = true ∧ flatFind native m.native_key = none := by
  intro ms
  induction ms with
  | nil => intro m h; simp [firstReqMissingNat] at h
  | cons m0 rest ih =>
    intro m h
    simp only [firstReqMissingNat] at h
    by_cases hc : m0.required && (flatFind native m0.native_key).isNone
    · rw [if_pos hc] at h
      injection h with h'
      subst h'
      rw [Bool.and_eq_true] at hc
      obtain ⟨hr, hn⟩ := hc
      exact ⟨List.mem_cons_self _ _, hr, Option.isNone_iff_eq_none.1 hn⟩
    · rw [if_neg hc] at h
      obtain ⟨h1, h2, h3⟩ := ih m h
      exact ⟨List.mem_cons_of_mem _ h1, h2, h3⟩

/-- If no required mapping is missing, every mapping whose canonical value
is absent must be optional. -/
theorem firstReqMissing_none (o : ORSF) :
    ∀ (ms : List FieldMapping), firstReqMissing o ms = none →
      ∀ m ∈ ms, get_value o m.orsf_path = none → m.required = false := by
  intro ms
  induction ms with
  | nil => intro _ m hm; cases hm
  | cons m0 rest ih =>
    intro h m hm hg
    simp only [firstReqMissing] at h
    by_cases hc : m0.required && (get_value o m0.orsf_path).isNone
    · rw [if_pos hc] at h; cases h
    · rw [if_neg hc] at h
      rcases List.mem_cons.1 hm with rfl | hm'
      · rcases Bool.eq_false_or_eq_true m.required with hr | hr
        · exact absurd (by simp [hr, hg]) hc
        · exact hr
      · exact ih h m hm' hg

/-- Emission never touches a key that no mapping in the list declares. -/
theorem emit_native_find_not_mem (o : ORSF) :
    ∀ (ms : List FieldMapping) (acc : FlatSetup) (k : String),
      (∀ m ∈ ms, m.native_key ≠ k) →
      flatFind (emit_native o ms acc) k = flatFind acc k := by
  intro ms
  induction ms with
  | nil => intro acc k _; rfl
  | cons m rest ih =>
    intro acc k h
    have hk : m.native_key ≠ k := h m (List.mem_cons_self _ _)
    have hrest : ∀ m' ∈ rest, m'.native_key ≠ k :=
      fun m' hm' => h m' (List.mem_cons_of_mem _ hm')
    simp only [emit_native]
    cases hg : get_value o m.orsf_path with
    | some v =>
      rw [ih _ _ hrest]
      exact flatFind_insert_ne _ _ _ _ (Ne.symm hk)
    | none => exact ih _ _ hrest

/-- Under distinct native keys, the emitted value at a declared mapping's
key is the transform of its canonical value when present, and the
accumulator's binding when absent. -/
theorem emit_native_find_mem (o : ORSF) :
    ∀ (ms : List FieldMapping) (acc : FlatSetup) (m : FieldMapping),
      (ms.map FieldMapping.native_key).Nodup → m ∈ ms →
      flatFind (emit_native o ms acc) m.native_key =
        (match get_value o m.orsf_path with
         | some v => some (applyT m.to_native v)
         | none => flatFind acc m.native_key) := by
  intro ms
  induction ms with
  | nil => intro acc m _ hm; cases hm
  | cons m0 rest ih =>
    intro acc m hnd hm
    have hnotmem : m0.native_key ∉ rest.map FieldMapping.native_key :=
      (List.nodup_cons.1 (by simpa using hnd)).1
    have hnd' : (rest.map FieldMapping.native_key).Nodup :=
      (List.nodup_cons.1 (by simpa using hnd)).2
    rcases List.mem_cons.1 hm with rfl | hm'
    · have hbar : ∀ m' ∈ rest, m'.native_key ≠ m.native_key :=
        fun m' hm' he => hnotmem (he ▸ List.mem_map_of_mem FieldMapping.native_key hm')
      simp only [emit_native]
      cases hg : get_value o m.orsf_path with
      | some v =>
        rw [emit_native_find_not_mem o rest _ _ hbar, flatFind_insert_self]
      | none =>
        rw [emit_native_find_not_mem o rest _ _ hbar]
    · have hne : m.native_key ≠ m0.native_key :=
        fun he => hnotmem (he ▸ List.mem_map_of_mem FieldMapping.native_key hm')
      simp only [emit_native]
      cases hg : get_value o m0.orsf_path with
      | some v =>
        rw [ih _ _ hnd' hm']
        cases hg2 : get_value o m.orsf_path with
        | some v2 => rfl
        | none => exact flatFind_insert_ne _ _ _ _ hne
      | none => exact ih _ _ hnd' hm'

/-- Unfolding of `convert` for distinct units. -/
theorem convert_ne {a b : Unit'} (x : ℚ) (h : a ≠ b) :
    convert x a b = from_base (to_base x a) b := by
  unfold convert
  exact if_neg h

/-- Converting out of the base unit and back is the identity (exact over
the rational model). -/
theorem to_from_base : ∀ (u : Unit') (z : ℚ), to_base (from_base z u) u = z := by
  intro u z
  cases u <;> simp only [to_base, from_base] <;> field_simp <;> ring_nf

/-- Converting into the base unit and back is the identity (exact over
the rational model). -/
theorem from_to_base : ∀ (u : Unit') (x : ℚ), from_base (to_base x u) u = x := by
  intro u x
  cases u <;> simp only [to_base, from_base] <;> field_simp

/-! ## Claim theorems -/

/-- Claim C1: the specification states that `flatten(inflate(flat, template))`
restores every key of `flat` exactly.  The source's `set_value` handles only
the aero, tires and brakes sections (its own comments call the
implementation simplified and say more sections are still to be added), so
inflating a flat map whose key addresses any other subsystem silently drops
the entry: for `flat = [("setup.fuel.start_fuel_l", 50)]` and a
default-constructed template, inflation is the identity and the re-flattened
document does not contain the key at all. -/
theorem c1_flatten_inflate_drops_fuel_key :
    flatFind [("setup.fuel.start_fuel_l", 50)] "setup.fuel.start_fuel_l" = some 50 ∧
    inflate_orsf [("setup.fuel.start_fuel_l", 50)] baseORSF = baseORSF ∧
    flatFind (flatten_orsf (inflate_orsf [("setup.fuel.start_fuel_l", 50)] baseORSF))
      "setup.fuel.start_fuel_l" = none :=
  ⟨rfl, rfl, rfl⟩

/-- Claim C2: the specification states that for every path valid under the
section 4.4 grammar, `set_value` creates missing containers and assigns the
leaf so that `get_value` then returns the written value, while malformed
paths are a silent no-op.  The malformed-path half holds, but the source
handles only the aero/tires/brakes sections, so the grammatical path
`setup.suspension.front_arb` is also a silent no-op and a subsequent
`get_value` still returns nothing. -/
theorem c2_set_value_ignores_valid_suspension_path :
    ∀ (doc : ORSF) (v : ℚ),
      set_value doc "setup.suspension.front_arb" v = doc ∧
      set_value doc "wrongroot.aero.front_wing" v = doc ∧
      set_value doc "setup.aero" v = doc ∧
      set_value doc "setup.unknown_section.field" v = doc ∧
      get_value (set_value baseORSF "setup.suspension.front_arb" v)
        "setup.suspension.front_arb" = none :=
  fun _ _ => ⟨rfl, rfl, rfl, rfl, rfl⟩

/-- Claim C3: the specification addresses gear ratios as
`setup.gearing.gear_<index>`, with `get_value` returning the ratio at that
zero-based list position.  The flatten pass does emit exactly these keys,
but the source's `get_value` has no branch for the `gearing` section at
all, so it returns no value for every gearing path even when the list and
index exist. -/
theorem c3_get_value_never_resolves_gear_paths :
    flatFind (flatten_orsf gearDoc) "setup.gearing.gear_0" = some 3.5 ∧
    flatFind (flatten_orsf gearDoc) "setup.gearing.gear_1" = some 2.8 ∧
    get_value gearDoc "setup.gearing.gear_0" = none ∧
    get_value gearDoc "setup.gearing.gear_1" = none :=
  ⟨rfl, rfl, rfl, rfl⟩

/-- Claim C4, counterexample: the constructor sorts with `std::sort`,
whose contract (`IsSortResult`) leaves the relative order of entries with
equal inputs unspecified — it is not a stable sort.  For the supplied
entries `[(1,10), (1,20)]` the permutation `[(1,20), (1,10)]` is a
permitted constructor outcome, and on it a query resolving to input `1`
returns `20`, the later duplicate's output, not the earlier's `10`.  So
the claim that the earlier duplicate always ends up first and wins is
false. -/
theorem c4_counterexample_unstable_sort_tie :
    IsSortResult [⟨1, 10⟩, ⟨1, 20⟩] [⟨1, 20⟩, ⟨1, 10⟩] ∧
    interpolate [⟨1, 20⟩, ⟨1, 10⟩] 1 = some 20 ∧
    (20 : ℚ) ≠ 10 := by
  refine ⟨⟨by decide, ?_⟩, by decide, by norm_num⟩
  norm_num [List.chain'_cons, List.chain'_singleton, entryLE]

/-- Claim C4 (amended): the constructor's table is ascending by input and
a permutation of the supplied entries, whatever order they were supplied
in, and its input sequence is uniquely determined; but when two entries
share an input value, which of them comes first is unspecified
(`std::sort` is not stable), so no earlier-duplicate-wins guarantee
holds. -/
theorem c4_constructor_sorts_ascending :
    ∀ (supplied t : List LUTEntry), IsSortResult supplied t →
      IsSortResult supplied (sortEntries supplied) ∧
      t.map LUTEntry.input = (sortEntries supplied).map LUTEntry.input := by
  intro supplied t ht
  have hsorted : List.Sorted entryLE (sortEntries supplied) :=
    List.sorted_insertionSort entryLE supplied
  have hperm : (sortEntries supplied).Perm supplied :=
    List.perm_insertionSort entryLE supplied
  refine ⟨⟨hperm, hsorted.chain'⟩, ?_⟩
  have hmp : (t.map LUTEntry.input).Perm ((sortEntries supplied).map LUTEntry.input) :=
    (ht.1.map LUTEntry.input).trans ((hperm.map LUTEntry.input).symm)
  have hs1 : List.Sorted (· ≤ ·) (t.map LUTEntry.input) :=
    List.Pairwise.map LUTEntry.input (fun _ _ h => h) ((List.chain'_iff_pairwise).1 ht.2)
  have hs2 : List.Sorted (· ≤ ·) ((sortEntries supplied).map LUTEntry.input) :=
    List.Pairwise.map LUTEntry.input (fun _ _ h => h) hsorted
  exact List.eq_of_perm_of_sorted hmp hs1 hs2

/-- Witness for the amended claim C4 at a concrete unsorted input list. -/
theorem c4_constructor_sorts_ascending_witness :
    IsSortResult [⟨2, 5⟩, ⟨1, 7⟩] [⟨1, 7⟩, ⟨2, 5⟩] ∧
    (IsSortResult [⟨2, 5⟩, ⟨1, 7⟩] (sortEntries [⟨2, 5⟩, ⟨1, 7⟩]) ∧
     [⟨1, 7⟩, ⟨2, 5⟩].map LUTEntry.input = (sortEntries [⟨2, 5⟩, ⟨1, 7⟩]).map LUTEntry.input) :=
  ⟨⟨by decide, by norm_num [List.chain'_cons, List.chain'_singleton, entryLE]⟩,
    c4_constructor_sorts_ascending _ _
      ⟨by decide, by norm_num [List.chain'_cons, List.chain'_singleton, entryLE]⟩⟩

/-- Claim C5, counterexample: interpolate is claimed monotonic
non-decreasing between any two consecutive table points of every
non-empty table, but the two-point table `[(0,10), (1,0)]` — ascending by
input, hence a legitimate constructor result — has interpolate decreasing
between its consecutive points `0` and `1`: at `1/4` it yields `15/2`, at
`1/2` only `5`. -/
theorem c5_counterexample_decreasing_outputs :
    List.Chain' entryLE [⟨0, 10⟩, ⟨1, 0⟩] ∧
    interpolate [⟨0, 10⟩, ⟨1, 0⟩] (1 / 4) = some (15 / 2) ∧
    interpolate [⟨0, 10⟩, ⟨1, 0⟩] (1 / 2) = some 5 ∧
    ¬ ((15 : ℚ) / 2 ≤ 5) := by
  refine ⟨?_, ?_, ?_, by norm_num⟩
  · norm_num [List.chain'_cons, List.chain'_singleton, entryLE]
  · norm_num [interpolate, lastEntry, interpGo, lerp]
  · norm_num [interpolate, lastEntry, interpGo, lerp]

/-- Claim C5 (amended): on every non-empty table with strictly increasing
inputs and non-decreasing outputs, interpolate returns the first entry's
output at or below the minimum input, the last entry's output at or above
the maximum input, and is monotone non-decreasing (hence, in particular,
between any two consecutive table points); for the scenario table
`[(0,0), (50,25), (100,75)]`, `interpolate 25 = 12.5` and
`reverse_lookup 25 = 50` exactly. -/
theorem c5_interpolate_bounds_and_monotonicity :
    ∀ (a : LUTEntry) (rest : List LUTEntry) (x y : ℚ),
      (a :: rest).Chain' (fun p q => p.input < q.input) →
      (a :: rest).Chain' (fun p q => p.output ≤ q.output) →
      ((x ≤ a.input → interpolate (a :: rest) x = some a.output) ∧
       ((lastEntry a rest).input ≤ x →
         interpolate (a :: rest) x = some (lastEntry a rest).output) ∧
       (x ≤ y → ∀ ix iy, interpolate (a :: rest) x = some ix →
         interpolate (a :: rest) y = some iy → ix ≤ iy) ∧
       (interpolate [⟨0, 0⟩, ⟨50, 25⟩, ⟨100, 75⟩] 25 = some (25 / 2) ∧
        reverse_lookup [⟨0, 0⟩, ⟨50, 25⟩, ⟨100, 75⟩] 25 = some 50)) := by
  intro a rest x y hin hout
  refine ⟨?_, ?_, ?_, ?_, ?_⟩
  · intro hx
    simp only [interpolate]
    rw [if_pos hx]
  · intro hx
    cases rest with
    | nil =>
      simp only [lastEntry] at hx
      simp only [interpolate, lastEntry]
      by_cases hxa : x ≤ a.input
      · rw [if_pos hxa]
      · rw [if_neg hxa, if_pos hx]
    | cons b r =>
      have h1 : a.input < b.input := (List.chain'_cons.1 hin).1
      have h2 : b.input ≤ (lastEntry b r).input :=
        chain'_head_le_last LUTEntry.input r b
          (((List.chain'_cons.1 hin).2).imp (fun _ _ h => le_of_lt h))
      have hax : ¬ x ≤ a.input := by
        intro hc
        have : (lastEntry a (b :: r)).input ≤ a.input := hx.trans hc
        rw [lastEntry] at this
        linarith
      simp only [interpolate]
      rw [if_neg hax, if_pos hx]
  · intro hxy ix iy hx hy
    simp only [interpolate] at hx hy
    by_cases h1 : x ≤ a.input
    · rw [if_pos h1] at hx
      injection hx with hx'
      subst hx'
      by_cases h1y : y ≤ a.input
      · rw [if_pos h1y] at hy
        injection hy with hy'
        subst hy'
        exact le_refl _
      · rw [if_neg h1y] at hy
        by_cases h2y : (lastEntry a rest).input ≤ y
        · rw [if_pos h2y] at hy
          injection hy with hy'
          subst hy'
          exact chain'_head_le_last LUTEntry.output rest a hout
        · rw [if_neg h2y] at hy
          injection hy with hy'
          subst hy'
          exact (interpGo_bounds rest a y hout).1
    · rw [if_neg h1] at hx
      have hax : a.input ≤ x := le_of_lt (lt_of_not_le h1)
      have h1y : ¬ y ≤ a.input := fun hc => h1 (hxy.trans hc)
      rw [if_neg h1y] at hy
      by_cases h2 : (lastEntry a rest).input ≤ x
      · rw [if_pos h2] at hx
        injection hx with hx'
        subst hx'
        rw [if_pos (h2.trans hxy)] at hy
        injection hy with hy'
        subst hy'
        exact le_refl _
      · rw [if_neg h2] at hx
        injection hx with hx'
        subst hx'
        by_cases h2y : (lastEntry a rest).input ≤ y
        · rw [if_pos h2y] at hy
          injection hy with hy'
          subst hy'
          exact (interpGo_bounds rest a x hout).2
        · rw [if_neg h2y] at hy
          injection hy with hy'
          subst hy'
          exact interpGo_mono rest a x y hout hax hxy
  · norm_num [interpolate, lastEntry, interpGo, lerp]
  · norm_num [reverse_lookup, sortEntries, List.insertionSort, List.orderedInsert,
      entryLE, interpolate, lastEntry, interpGo, lerp]

/-- Witness for the amended claim C5 at the scenario table with queries
`0` and `100`. -/
theorem c5_interpolate_bounds_and_monotonicity_witness :
    (List.Chain' (fun p q : LUTEntry => p.input < q.input)
       [⟨0, 0⟩, ⟨50, 25⟩, ⟨100, 75⟩] ∧
     List.Chain' (fun p q : LUTEntry => p.output ≤ q.output)
       [⟨0, 0⟩, ⟨50, 25⟩, ⟨100, 75⟩]) ∧
    (((0 : ℚ) ≤ 0 → interpolate [⟨0, 0⟩, ⟨50, 25⟩, ⟨100, 75⟩] 0 = some 0) ∧
     ((100 : ℚ) ≤ 0 → interpolate [⟨0, 0⟩, ⟨50, 25⟩, ⟨100, 75⟩] 0 = some 75) ∧
     ((0 : ℚ) ≤ 100 → ∀ ix iy, interpolate [⟨0, 0⟩, ⟨50, 25⟩, ⟨100, 75⟩] 0 = some ix →
        interpolate [⟨0, 0⟩, ⟨50, 25⟩, ⟨100, 75⟩] 100 = some iy → ix ≤ iy) ∧
     (interpolate [⟨0, 0⟩, ⟨50, 25⟩, ⟨100, 75⟩] 25 = some (25 / 2) ∧
      reverse_lookup [⟨0, 0⟩, ⟨50, 25⟩, ⟨100, 75⟩] 25 = some 50)) := by
  have hc1 : List.Chain' (fun p q : LUTEntry => p.input < q.input)
      [⟨0, 0⟩, ⟨50, 25⟩, ⟨100, 75⟩] := by
    norm_num [List.chain'_cons, List.chain'_singleton]
  have hc2 : List.Chain' (fun p q : LUTEntry => p.output ≤ q.output)
      [⟨0, 0⟩, ⟨50, 25⟩, ⟨100, 75⟩] := by
    norm_num [List.chain'_cons, List.chain'_singleton]
  exact ⟨⟨hc1, hc2⟩,
    c5_interpolate_bounds_and_monotonicity ⟨0, 0⟩ [⟨50, 25⟩, ⟨100, 75⟩] 0 100 hc1 hc2⟩

/-- Claim C6: for every value and every pair of units within one dimension
family, converting there and back restores the value (exactly, in the
rational model, which implies the floating-tolerance claim); concretely,
200 kPa is about 29.0076 psi and 30 psi about 206.843 kPa. -/
theorem c6_unit_conversion_round_trip :
    ∀ (x : ℚ) (a b : Unit'), unitDim a = unitDim b →
      convert (convert x a b) b a = x ∧
      |convert 200 Unit'.KPA Unit'.PSI - 29.0076| < 0.001 ∧
      |convert 30 Unit'.PSI Unit'.KPA - 206.843| < 0.001 := by
  intro x a b _
  refine ⟨?_, ?_, ?_⟩
  · rcases eq_or_ne a b with h | h
    · simp [convert, h]
    · unfold convert
      rw [if_neg h, if_neg (Ne.symm h), to_from_base, from_to_base]
  · rw [convert_ne 200 (by decide)]
    norm_num [to_base, from_base, abs_lt]
  · rw [convert_ne 30 (by decide)]
    norm_num [to_base, from_base, abs_lt]

/-- Witness for claim C6 at the concrete pressure pair of the
specification's scenario. -/
theorem c6_unit_conversion_round_trip_witness :
    unitDim Unit'.KPA = unitDim Unit'.PSI ∧
    (convert (convert 200 Unit'.KPA Unit'.PSI) Unit'.PSI Unit'.KPA = 200 ∧
     |convert 200 Unit'.KPA Unit'.PSI - 29.0076| < 0.001 ∧
     |convert 30 Unit'.PSI Unit'.KPA - 206.843| < 0.001) :=
  ⟨rfl, c6_unit_conversion_round_trip 200 Unit'.KPA Unit'.PSI rfl⟩

/-- Claim C7: `map_to_native` reads the canonical value at each mapping's
path; a required mapping with an absent value aborts the whole call with a
required-field error naming that path and no partial flat map is returned
(the result is the error alone); an optional absent mapping emits nothing;
a present value is emitted under the native key after the forward
transform (the identity when none is declared).  `map_to_orsf` fails the
same way for a missing required native key. -/
theorem c7_mapping_required_field_semantics :
    ∀ (o : ORSF) (ms : List FieldMapping) (native : FlatSetup) (tmpl : ORSF),
      (ms.map FieldMapping.native_key).Nodup →
      (map_to_native o ms =
        (match firstReqMissing o ms with
         | some m => Except.error ("Required field missing: " ++ m.orsf_path)
         | none => Except.ok (emit_native o ms emptyFlat))) ∧
      (∀ e, map_to_native o ms = Except.error e →
        ∃ m, m ∈ ms ∧ m.required = true ∧ get_value o m.orsf_path = none ∧
          e = "Required field missing: " ++ m.orsf_path) ∧
      (∀ flat, map_to_native o ms = Except.ok flat → ∀ m, m ∈ ms →
        (get_value o m.orsf_path = none →
          m.required = false ∧ flatFind flat m.native_key = none) ∧
        (∀ v, get_value o m.orsf_path = some v →
          flatFind flat m.native_key = some (applyT m.to_native v))) ∧
      (map_to_orsf native ms tmpl =
        (match firstReqMissingNat native ms with
         | some m => Except.error ("Required native field missing: " ++ m.native_key)
         | none => Except.ok (emit_orsf native ms tmpl))) ∧
      (∀ e, map_to_orsf native ms tmpl = Except.error e →
        ∃ m, m ∈ ms ∧ m.required = true ∧ flatFind native m.native_key = none ∧
          e = "Required native field missing: " ++ m.native_key) := by
  intro o ms native tmpl hnd
  have hchar := map_to_native_go_eq o ms emptyFlat
  have hcharN := map_to_orsf_go_eq native ms tmpl
  refine ⟨hchar, ?_, ?_, hcharN, ?_⟩
  · intro e he
    rw [map_to_native] at he
    rw [hchar] at he
    cases hf : firstReqMissing o ms with
    | none => rw [hf] at he; cases he
    | some m =>
      rw [hf] at he
      injection he with he'
      obtain ⟨h1, h2, h3⟩ := firstReqMissing_spec o ms m hf
      exact ⟨m, h1, h2, h3, he'.symm⟩
  · intro flat hok m hm
    rw [map_to_native] at hok
    rw [hchar] at hok
    cases hf : firstReqMissing o ms with
    | some m' => rw [hf] at hok; cases hok
    | none =>
      rw [hf] at hok
      injection hok with hok'
      subst hok'
      constructor
      · intro hg
        refine ⟨firstReqMissing_none o ms hf m hm hg, ?_⟩
        rw [emit_native_find_mem o ms emptyFlat m hnd hm, hg]
        rfl
      · intro v hg
        rw [emit_native_find_mem o ms emptyFlat m hnd hm, hg]
  · intro e he
    rw [map_to_orsf] at he
    rw [hcharN] at he
    cases hf : firstReqMissingNat native ms with
    | none => rw [hf] at he; cases he
    | some m =>
      rw [hf] at he
      injection he with he'
      obtain ⟨h1, h2, h3⟩ := firstReqMissingNat_spec native ms m hf
      exact ⟨m, h1, h2, h3, he'.symm⟩

/-- Witness for claim C7: with a single required mapping for
`setup.aero.front_wing` and a default document (whose aero block is
absent), the conversion fails naming exactly that mapping. -/
theorem c7_mapping_required_field_semantics_witness :
    (demoMs.map FieldMapping.native_key).Nodup ∧
    (∃ m, m ∈ demoMs ∧ m.required = true ∧ get_value baseORSF m.orsf_path = none ∧
      "Required field missing: setup.aero.front_wing" =
        "Required field missing: " ++ m.orsf_path) :=
  ⟨by decide,
    (c7_mapping_required_field_semantics baseORSF demoMs emptyFlat baseORSF (by decide)).2.1
      "Required field missing: setup.aero.front_wing" rfl⟩

/-- Claim C8: gear-ratio validation emits a Warning when the present ratio
list is empty and one Error per non-positive entry, addressed by index;
the ratio list `[3.5, -2.8, 2.3, 0, 1.6]` yields exactly the two
OutOfRange/Error findings at indices 1 and 3. -/
theorem c8_gearing_validation_by_index :
    (∀ rs : List ℚ,
      validate_gearing (some { gear_ratios := some rs }) =
        (if rs.isEmpty then [gearEmptyWarning] else []) ++
          rs.enum.filterMap (fun p => if p.2 ≤ 0 then some (mkGearError p.1) else none)) ∧
    validate_gearing (some { gear_ratios := some [3.5, -2.8, 2.3, 0, 1.6] }) =
      [mkGearError 1, mkGearError 3] ∧
    gearEmptyWarning.severity = ValidationSeverity.Warning ∧
    validate_gearing (some { gear_ratios := some [] }) = [gearEmptyWarning] ∧
    mkGearError 1 =
      { severity := ValidationSeverity.Error, code := ValidationCode.OutOfRange,
        field := "setup.gearing.gear_ratios[1]", message := "Gear ratio must be positive" } ∧
    (mkGearError 3).field = "setup.gearing.gear_ratios[3]" := by
  refine ⟨?_, ?_, rfl, rfl, rfl, rfl⟩
  · intro rs
    simp [validate_gearing, gearErrors_eq_filterMap, List.enum]
  · norm_num [validate_gearing, gearErrors]

/-- Claim C9: `validate` returns its findings as an ordered list of data
values (the model is a total pure function, mirroring the exception-free
source), never stops early — the last check's findings are always a suffix
of the result no matter what earlier checks produced — and one run can mix
severities: the demo document yields the schema Error followed by the
cross-field track-temperature Warning. -/
theorem c9_validate_runs_every_check :
    (∀ doc : ORSF, List.IsSuffix (validate_cross_field doc) (validate doc)) ∧
    validate demoDoc = [schemaFinding, trackLowWarning] ∧
    schemaFinding.severity = ValidationSeverity.Error ∧
    trackLowWarning.severity = ValidationSeverity.Warning := by
  refine ⟨?_, ?_, rfl, rfl⟩
  · intro doc
    simp only [validate]
    exact List.suffix_append _ _
  · simp [validate, demo_schema_findings, demo_metadata_findings, demo_car_findings,
      demo_context_findings, demo_setup_findings, demo_cross_findings]

/-- Claim C10: on a `setup.<section>.<leaf>` path whose section is one the
engine handles (aero, tires or brakes) but whose leaf name is unknown,
`set_value` still default-constructs the absent subsystem container before
discovering the unknown leaf: the document gains an empty subsystem block
(so it can change even though no leaf is assigned) while every other field
is left exactly as it was. -/
theorem c10_set_value_materialises_empty_subsystem :
    ∀ (doc : ORSF) (v : ℚ),
      set_value doc "setup.aero.unknown_leaf" v
        = { doc with setup := { doc.setup with aero := some (doc.setup.aero.getD {}) } } ∧
      set_value doc "setup.tires.unknown_leaf" v
        = { doc with setup := { doc.setup with tires := some (doc.setup.tires.getD {}) } } ∧
      set_value doc "setup.brakes.unknown_leaf" v
        = { doc with setup := { doc.setup with brakes := some (doc.setup.brakes.getD {}) } } ∧
      set_value baseORSF "setup.aero.unknown_leaf" v ≠ baseORSF := by
  intro doc v
  refine ⟨rfl, rfl, rfl, fun h => ?_⟩
  exact Option.noConfusion
    (show some ({} : Aerodynamics) = (none : Option Aerodynamics) from
      congrArg (fun d => d.setup.aero) h)

end Orsf
